import Mathlib

/-!
Verification of the open-inpaint-anything server core.

The definitions below are a shallow embedding of the Python sources:
`utils/image_utils.py`, `utils/exceptions.py`, `api/services/inpaint_service.py`,
`api/services/model_loader.py`, `api/routes/inpaint.py`, `api/routes/health.py`,
`api/models/requests.py` and `api/main.py`.  Python exceptions become `Except`
values, the process-wide model registry becomes explicit state passing, and the
event-loop interleaving of the segmentation coroutine becomes a trace semantics.
-/

deriving instance DecidableEq for Except

namespace InpaintAnything

/-- Python's `str.lower()` on ASCII format names. -/
def pyLower (s : String) : String := String.mk (s.toList.map Char.toLower)

/-- Python's `str.strip()`: drop leading and trailing whitespace. -/
def pyStrip (s : String) : String :=
  String.mk (((s.toList.dropWhile Char.isWhitespace).reverse.dropWhile
    Char.isWhitespace).reverse)

/-- Exception taxonomy of `utils/exceptions.py`: the subclasses of
`InpaintException`, each carrying its message string. -/
inductive InpaintErr where
  | modelNotLoaded (msg : String)
  | invalidImage (msg : String)
  | processingTimeout (msg : String)
  | invalidCoordinates (msg : String)
  | fileTooLarge (msg : String)
  | unsupportedImageFormat (msg : String)
deriving DecidableEq, Repr

/-- `exc.__class__.__name__` for each `InpaintException` subclass. -/
def InpaintErr.className : InpaintErr → String
  | .modelNotLoaded _ => "ModelNotLoadedException"
  | .invalidImage _ => "InvalidImageException"
  | .processingTimeout _ => "ProcessingTimeoutException"
  | .invalidCoordinates _ => "InvalidCoordinatesException"
  | .fileTooLarge _ => "FileTooLargeException"
  | .unsupportedImageFormat _ => "UnsupportedImageFormatException"

/-- `str(e)` for each `InpaintException` subclass. -/
def InpaintErr.message : InpaintErr → String
  | .modelNotLoaded m => m
  | .invalidImage m => m
  | .processingTimeout m => m
  | .invalidCoordinates m => m
  | .fileTooLarge m => m
  | .unsupportedImageFormat m => m

/-- `settings.max_file_size` default (10485760 bytes, `config/settings.py`). -/
def maxFileSize : ℕ := 10485760

/-- `settings.max_image_size` default (2048 px, `config/settings.py`). -/
def maxImageSize : ℕ := 2048

/-- `validate_coordinates` from `utils/image_utils.py` (lines 110-125).
Coordinates are Python floats, embedded as rationals; `image_shape[:2]` is
`(height, width)`.  Each coordinate must be a two-element list `[x, y]` with
`0 <= x <= width and 0 <= y <= height`; the first failing coordinate raises
`InvalidImageException`. -/
def validate_coordinates : List (List ℚ) → ℕ → ℕ → Except InpaintErr (List (ℚ × ℚ))
  | [], _, _ => .ok []
  | c :: rest, height, width =>
    if c.length = 2 then
      if 0 ≤ c.getD 0 0 ∧ c.getD 0 0 ≤ (width : ℚ) ∧
          0 ≤ c.getD 1 0 ∧ c.getD 1 0 ≤ (height : ℚ) then
        (validate_coordinates rest height width).map
          (fun vs => (c.getD 0 0, c.getD 1 0) :: vs)
      else
        .error (.invalidImage "Coordinate is outside image bounds")
    else
      .error (.invalidImage "Each coordinate must have exactly 2 values [x, y]")

/-- `validate_point_labels` from `utils/image_utils.py` (lines 128-137): the
label count must match the coordinate count and every label must be 0 or 1. -/
def validate_point_labels (labels : List ℤ) (coordsCount : ℕ) : Except InpaintErr (List ℤ) :=
  if labels.length ≠ coordsCount then
    .error (.invalidImage "Number of labels must match number of coordinates")
  else if labels.all (fun l => l = 0 || l = 1) then
    .ok labels
  else
    .error (.invalidImage "Point labels must be 0 or 1")

/-- The §3 point-prompt invariants as the spec states them: both sequences
non-empty, equal length, coordinates in `[0,width]×[0,height]`, labels in
`{0,1}`. -/
def pointPromptInvariants (coords : List (List ℚ)) (labels : List ℤ)
    (height width : ℕ) : Prop :=
  coords ≠ [] ∧ labels ≠ [] ∧ labels.length = coords.length ∧
  (∀ c ∈ coords, c.length = 2 ∧
    0 ≤ c.getD 0 0 ∧ c.getD 0 0 ≤ (width : ℚ) ∧
    0 ≤ c.getD 1 0 ∧ c.getD 1 0 ≤ (height : ℚ)) ∧
  (∀ l ∈ labels, l = 0 ∨ l = 1)

instance (coords : List (List ℚ)) (labels : List ℤ) (height width : ℕ) :
    Decidable (pointPromptInvariants coords labels height width) := by
  unfold pointPromptInvariants; infer_instance

/-- The maximum of a list of scores (helper for `np.argmax`). -/
def listMax : List ℚ → ℚ
  | [] => 0
  | [a] => a
  | a :: b :: t => max a (listMax (b :: t))

/-- `np.argmax` on a 1-d float array: the index of the maximum value, with the
first occurrence returned when the maximum is attained several times (numpy's
documented tie-breaking).  numpy itself is an external library; this is its
documented semantics, used at `inpaint_service.py` line 55. -/
def npArgmax : List ℚ → ℕ
  | [] => 0
  | [_] => 0
  | a :: b :: t => if listMax (b :: t) > a then npArgmax (b :: t) + 1 else 0

/-- A segmentation mask: 2-d boolean array (H × W), row-major. -/
def Mask : Type := List (List Bool)

instance : DecidableEq Mask := by unfold Mask; infer_instance

/-- Read a mask cell, `false` outside the grid. -/
def maskGet (m : Mask) (i j : ℕ) : Bool := (m.getD i []).getD j false

/-- `true` when two indices are within Chebyshev distance `k`. -/
def chebNear (k a b : ℕ) : Bool := a - b ≤ k && b - a ≤ k

/-- Modelled from the spec: `utils.dilate_mask` is imported by
`inpaint_service.py` (line 11) but its defining module is not among these
sources.  The spec describes it as growing the mask's true region by the given
radius with a fixed structuring element (morphological dilation), which over a
boolean grid is: a cell is set iff some set cell of the input lies within
Chebyshev distance `k` of it. -/
def dilate_mask (m : Mask) (k : ℕ) : Mask :=
  (List.range m.length).map fun i =>
    (List.range (m.getD i []).length).map fun j =>
      (List.range m.length).any fun i2 =>
        (List.range (m.getD i2 []).length).any fun j2 =>
          chebNear k i i2 && chebNear k j j2 && maskGet m i2 j2

/-- Python truthiness of `Optional[int]`: `if dilate_kernel_size:` is taken
exactly when the value is present and nonzero. -/
def optTruthy : Option ℕ → Bool
  | none => false
  | some n => n ≠ 0

/-- The dilation stage of the pipelines (`inpaint_service.py` lines 57-59,
108-110, 160-162): `if dilate_kernel_size: mask = dilate_mask(mask, dilate_kernel_size)`. -/
def applyDilate (dilateKernelSize : Option ℕ) (mask : Mask) : Mask :=
  if optTruthy dilateKernelSize then dilate_mask mask (dilateKernelSize.getD 0) else mask

/-- The decoded image as the pipelines see it: only its shape matters to the
orchestration code (`image.shape`). -/
structure NdImage where
  height : ℕ
  width : ℕ
deriving DecidableEq, Repr

/-- Output of `sam_predictor.predict`: candidate masks with confidence scores
(`multimask_output=True`). -/
structure SamOutput where
  masks : List Mask
  scores : List ℚ

/-- The model registry's handles as the service consumes them
(`model_loader.get_sam_predictor` / `get_lama_model` / `get_sd_pipeline`):
`none` when not loaded, otherwise an opaque model function. -/
structure Models where
  samPredictor : Option (NdImage → List (ℚ × ℚ) → List ℤ → SamOutput)
  lamaModel : Option (NdImage → Mask → NdImage)
  sdPipeline : Option (NdImage → Mask → String → ℕ → NdImage)

/-- `masks[np.argmax(scores)]` (`inpaint_service.py` line 55): the candidate
mask at the index of the maximum score. -/
def selectBestMask (masks : List Mask) (scores : List ℚ) : Mask :=
  masks.getD (npArgmax scores) []

/-- `InpaintService.remove_object` (`inpaint_service.py` lines 26-71), with the
number of model invocations (SAM predict + LaMa inpaint) counted alongside the
result.  Stages in source order: validate coordinates, validate labels, fetch
handles, check both handles, SAM predict, best-mask selection, conditional
dilation, LaMa inpaint. -/
def remove_object (models : Models) (image : NdImage)
    (pointCoords : List (List ℚ)) (pointLabels : List ℤ)
    (dilateKernelSize : Option ℕ) : Except InpaintErr (NdImage × Mask) × ℕ :=
  match validate_coordinates pointCoords image.height image.width with
  | .error e => (.error e, 0)
  | .ok coords =>
    match validate_point_labels pointLabels coords.length with
    | .error e => (.error e, 0)
    | .ok labels =>
      match models.samPredictor with
      | none => (.error (.modelNotLoaded "SAM model not loaded"), 0)
      | some sam =>
        match models.lamaModel with
        | none => (.error (.modelNotLoaded "LaMa model not loaded"), 0)
        | some lama =>
          let out := sam image coords labels
          let mask := selectBestMask out.masks out.scores
          let mask := applyDilate dilateKernelSize mask
          (.ok (lama image mask, mask), 2)

/-- `InpaintService.fill_object` (`inpaint_service.py` lines 73-122): like
`remove_object` but with the empty-prompt check after point validation and the
diffusion fill as terminal stage.  `num_inference_steps` is not a parameter of
fill; the model function receives 0 for it. -/
def fill_object (models : Models) (image : NdImage)
    (pointCoords : List (List ℚ)) (pointLabels : List ℤ) (textPrompt : String)
    (dilateKernelSize : Option ℕ) : Except InpaintErr (NdImage × Mask) × ℕ :=
  match validate_coordinates pointCoords image.height image.width with
  | .error e => (.error e, 0)
  | .ok coords =>
    match validate_point_labels pointLabels coords.length with
    | .error e => (.error e, 0)
    | .ok labels =>
      if pyStrip textPrompt = "" then
        (.error (.invalidImage "Text prompt cannot be empty"), 0)
      else
        match models.samPredictor with
        | none => (.error (.modelNotLoaded "SAM model not loaded"), 0)
        | some sam =>
          match models.sdPipeline with
          | none => (.error (.modelNotLoaded "Stable Diffusion model not loaded"), 0)
          | some sd =>
            let out := sam image coords labels
            let mask := selectBestMask out.masks out.scores
            let mask := applyDilate dilateKernelSize mask
            (.ok (sd image mask textPrompt 0, mask), 2)

/-- The class-level state of `ModelLoader` (`model_loader.py` lines 21-27):
one optional handle per model (plus the LaMa config).  Handles are opaque,
embedded as natural-number tokens. -/
structure LoaderState where
  samPredictor : Option ℕ
  lamaModel : Option ℕ
  lamaConfig : Option ℕ
  sdPipeline : Option ℕ
deriving DecidableEq, Repr

/-- `ModelLoader.load_sam_model` (lines 34-53): return the existing handle if
already loaded; otherwise fail when the checkpoint file is missing, else store
and return the freshly built predictor.  `ckptExists` stands for
`Path(settings.sam_checkpoint_path).exists()` and `h` for the predictor the
executor builds. -/
def load_sam_model (ckptExists : Bool) (h : ℕ) (s : LoaderState) :
    LoaderState × Except String ℕ :=
  match s.samPredictor with
  | some p => (s, .ok p)
  | none =>
    if ckptExists then ({ s with samPredictor := some h }, .ok h)
    else (s, .error "SAM checkpoint not found")

/-- `ModelLoader.load_lama_model` (lines 64-86): skip when loaded, fail when
the config or checkpoint path is missing, else store model and config. -/
def load_lama_model (pathsExist : Bool) (m c : ℕ) (s : LoaderState) :
    LoaderState × Except String (ℕ × Option ℕ) :=
  match s.lamaModel with
  | some p => (s, .ok (p, s.lamaConfig))
  | none =>
    if pathsExist then
      ({ s with lamaModel := some m, lamaConfig := some c }, .ok (m, some c))
    else (s, .error "LaMa config or checkpoint not found")

/-- `ModelLoader.load_sd_pipeline` (lines 99-115): skip when loaded; `loadOk`
stands for `StableDiffusionInpaintPipeline.from_pretrained` succeeding. -/
def load_sd_pipeline (loadOk : Bool) (h : ℕ) (s : LoaderState) :
    LoaderState × Except String ℕ :=
  match s.sdPipeline with
  | some p => (s, .ok p)
  | none =>
    if loadOk then ({ s with sdPipeline := some h }, .ok h)
    else (s, .error "SD pipeline load failed")

/-- `ModelLoader.load_all_models` (lines 125-136): `asyncio.gather` over the
three loads.  Each load touches only its own handle, and §5 of the project
documentation requires each model's own load to be one-at-a-time, so the
gather is embedded as the composition of the three loads; the overall result
errors when any one of them does. -/
def load_all_models (samOk lamaOk sdOk : Bool) (hs hl hc hd : ℕ)
    (s : LoaderState) : LoaderState × Except String Unit :=
  let r1 := load_sam_model samOk hs s
  let r2 := load_lama_model lamaOk hl hc r1.1
  let r3 := load_sd_pipeline sdOk hd r2.1
  (r3.1,
    match r1.2, r2.2, r3.2 with
    | .ok _, .ok _, .ok _ => .ok ()
    | .error e, _, _ => .error e
    | _, .error e, _ => .error e
    | _, _, .error e => .error e)

/-- `ModelLoader.get_sam_predictor` (lines 138-140): non-mutating read. -/
def get_sam_predictor (s : LoaderState) : Option ℕ := s.samPredictor

/-- `ModelLoader.get_lama_model` (lines 142-144): non-mutating read of the
`(model, config)` pair. -/
def get_lama_model (s : LoaderState) : Option ℕ × Option ℕ :=
  (s.lamaModel, s.lamaConfig)

/-- `ModelLoader.get_sd_pipeline` (lines 146-148): non-mutating read. -/
def get_sd_pipeline (s : LoaderState) : Option ℕ := s.sdPipeline

/-- `ModelLoader.is_ready` (lines 150-156): all three of SAM predictor, LaMa
model and SD pipeline are set. -/
def is_ready (s : LoaderState) : Bool :=
  s.samPredictor.isSome && s.lamaModel.isSome && s.sdPipeline.isSome

/-- `readiness_check` (`health.py` lines 59-88): HTTP 503 when
`not model_loader.is_ready()`, else HTTP 200. -/
def readiness_status (s : LoaderState) : ℕ :=
  if !is_ready s then 503 else 200

/-- The registry's mutating operations, for reachability arguments. -/
inductive LoaderOp where
  | loadSam (ok : Bool) (h : ℕ)
  | loadLama (ok : Bool) (m c : ℕ)
  | loadSd (ok : Bool) (h : ℕ)
  | loadAll (samOk lamaOk sdOk : Bool) (hs hl hc hd : ℕ)
deriving DecidableEq, Repr

/-- State effect of one registry operation. -/
def applyOp : LoaderOp → LoaderState → LoaderState
  | .loadSam ok h, s => (load_sam_model ok h s).1
  | .loadLama ok m c, s => (load_lama_model ok m c s).1
  | .loadSd ok h, s => (load_sd_pipeline ok h s).1
  | .loadAll a b c hs hl hc hd, s => (load_all_models a b c hs hl hc hd s).1

/-- State effect of a sequence of registry operations. -/
def applyOps (ops : List LoaderOp) (s : LoaderState) : LoaderState :=
  ops.foldl (fun t o => applyOp o t) s

/-- The two shared-Segmenter actions of `InpaintService._predict_masks_async`
(`inpaint_service.py` lines 176-198), tagged with the request performing them:
`bind r` is `sam_predictor.set_image(image_r)` and `predict r` is the
`sam_predictor.predict(...)` run in the executor. -/
inductive SegAction where
  | bind (r : ℕ)
  | predict (r : ℕ)
deriving DecidableEq, Repr

/-- The request a segmentation action belongs to. -/
def SegAction.req : SegAction → ℕ
  | .bind r => r
  | .predict r => r

/-- The schedules the code admits for a set `rs` of concurrent requests:
each request contributes exactly its program-ordered pair
`[set_image, predict]`, and the pairs of distinct requests may interleave
arbitrarily — `_predict_masks_async` holds no lock, and the
`await loop.run_in_executor(...)` between the two calls is a point where the
event loop is free to run any other request's coroutine. -/
def codeSchedule (rs : List ℕ) (t : List SegAction) : Prop :=
  (∀ a ∈ t, a.req ∈ rs) ∧
  ∀ r ∈ rs, t.filter (fun a => a.req == r) = [SegAction.bind r, SegAction.predict r]

instance (rs : List ℕ) (t : List SegAction) : Decidable (codeSchedule rs t) := by
  unfold codeSchedule; infer_instance

/-- Execute a schedule against the shared predictor state (the image currently
bound by `set_image`, initially none), recording at each `predict r` the pair
(requesting request, request whose image is bound). -/
def runSeg : List SegAction → Option ℕ → List (ℕ × Option ℕ)
  | [], _ => []
  | .bind r :: t, _ => runSeg t (some r)
  | .predict r :: t, bound => (r, bound) :: runSeg t bound

/-- The (request, observed bound image) pairs a schedule produces. -/
def segObservations (t : List SegAction) : List (ℕ × Option ℕ) :=
  runSeg t none

/-- The claimed atomicity: every predict call observes the image its own
request bound. -/
def atomicPerRequest (t : List SegAction) : Prop :=
  ∀ p ∈ segObservations t, p.2 = some p.1

instance (t : List SegAction) : Decidable (atomicPerRequest t) := by
  unfold atomicPerRequest; infer_instance

/-- The racy interleaving: request 0 binds its image and suspends on the
executor await; request 1 then binds its image; request 0's predict runs. -/
def raceTrace : List SegAction :=
  [.bind 0, .bind 1, .predict 0, .predict 1]

/-- The wire-level facts about an inbound image payload that
`load_image_from_file` / `decode_base64_image` branch on: the byte length and
the result of `PIL.Image.open` (`none` when PIL cannot parse the bytes,
otherwise the parsed format name, color mode and size).  PIL's format name for
the WebP container is the uppercase string WEBP. -/
structure ImagePayload where
  byteLen : ℕ
  pilFormat : Option String
  pilMode : String
  pilWidth : ℕ
  pilHeight : ℕ
deriving DecidableEq, Repr

/-- The format allow-list literal of `image_utils.py` lines 31 and 88. -/
def allowedFormats : List String := ["JPEG", "PNG", "WebP"]

/-- Proportional downsampling of `image_utils.py` lines 39-42 / 96-99:
`ratio = max_image_size / max(image.size)`, `new = int(dim * ratio)`. -/
def resizeDims (w h : ℕ) : ℕ × ℕ :=
  if max w h > maxImageSize then
    let q : ℚ := (maxImageSize : ℚ) / (max w h : ℚ)
    (((w : ℚ) * q).floor.toNat, ((h : ℚ) * q).floor.toNat)
  else (w, h)

/-- `load_image_from_file` (`image_utils.py` lines 77-107): size limit, PIL
open, format allow-list, RGB conversion, proportional downsample, ndarray
conversion; returned as the decoded (width, height).  A PIL open failure is
re-raised by the generic handler as `InvalidImageException`. -/
def load_image_from_file (p : ImagePayload) : Except InpaintErr (ℕ × ℕ) :=
  if p.byteLen > maxFileSize then
    .error (.fileTooLarge "File size exceeds limit")
  else
    match p.pilFormat with
    | none => .error (.invalidImage "Failed to load image from file")
    | some fmt =>
      if fmt ∉ allowedFormats then
        .error (.unsupportedImageFormat ("Unsupported image format: " ++ fmt))
      else
        resizeDims p.pilWidth p.pilHeight |> .ok

/-- `decode_base64_image` (`image_utils.py` lines 13-50): after the data-URI
strip and base64 decode (external `base64.b64decode`; a malformed payload ends
in the same generic `InvalidImageException` as an unopenable image, which the
`pilFormat = none` case covers), the checks are those of
`load_image_from_file`. -/
def decode_base64_image (p : ImagePayload) : Except InpaintErr (ℕ × ℕ) :=
  if p.byteLen > maxFileSize then
    .error (.fileTooLarge "Image size exceeds limit")
  else
    match p.pilFormat with
    | none => .error (.invalidImage "Failed to decode base64 image")
    | some fmt =>
      if fmt ∉ allowedFormats then
        .error (.unsupportedImageFormat ("Unsupported image format: " ++ fmt))
      else
        resizeDims p.pilWidth p.pilHeight |> .ok

/-- A multipart upload as `get_image_from_request` sees it: declared
content type plus payload bytes. -/
structure UploadFile where
  contentType : String
  payload : ImagePayload
deriving DecidableEq, Repr

/-- `get_image_from_request` (`routes/inpaint.py` lines 26-44): a present file
upload wins and must carry an allowed content type; otherwise present
`image_data` is base64-decoded; otherwise `InvalidImageException`. -/
def get_image_from_request (image : Option UploadFile)
    (imageData : Option ImagePayload) : Except InpaintErr (ℕ × ℕ) :=
  match image with
  | some f =>
    if f.contentType ∈ ["image/jpeg", "image/png", "image/webp"] then
      load_image_from_file f.payload
    else
      .error (.invalidImage ("Unsupported image type: " ++ f.contentType))
  | none =>
    match imageData with
    | some d => decode_base64_image d
    | none => .error (.invalidImage "Either image file or image_data must be provided")

/-- The characters stripped by the pydantic prompt sanitizer
(`requests.py` line 80, the regular expression class of `<`, `>`, double
quote and apostrophe). -/
def strippedPromptChar (c : Char) : Bool :=
  c = Char.ofNat 60 || c = Char.ofNat 62 || c = Char.ofNat 34 || c = Char.ofNat 39

/-- `re.sub` of the sanitizer applied to the trimmed prompt. -/
def sanitizedPrompt (v : String) : String :=
  String.mk ((pyStrip v).toList.filter (fun c => !strippedPromptChar c))

/-- The `validate_text_prompt` pydantic validator (`requests.py` lines 74-84):
reject whitespace-only prompts, strip the cleanup characters, reject prompts
with nothing left, else return the cleaned prompt. -/
def validate_text_prompt (v : String) : Except String String :=
  if pyStrip v = "" then .error "text_prompt cannot be empty or only whitespace"
  else
    let cleaned := sanitizedPrompt v
    if cleaned.length < 1 then .error "text_prompt must contain valid characters"
    else .ok cleaned

/-- The `validate_point_coords` pydantic validator plus nothing else
(`requests.py` lines 24-40): non-empty, pairs, numeric (by typing),
non-negative.  Note it does not know the image size. -/
def pydCoordsOk (v : List (List ℚ)) : Bool :=
  !v.isEmpty && v.all (fun c => c.length == 2 &&
    decide (0 ≤ c.getD 0 0) && decide (0 ≤ c.getD 1 0))

/-- The `validate_point_labels` pydantic validator (`requests.py` lines
42-56): non-empty, same length as the coordinates, values 0 or 1. -/
def pydLabelsOk (coords : List (List ℚ)) (v : List ℤ) : Bool :=
  !v.isEmpty && v.length == coords.length && v.all (fun l => l == 0 || l == 1)

/-- The `dilate_kernel_size` field bounds `ge=0, le=50` (`requests.py` lines
17-22). -/
def pydDilateOk : Option ℤ → Bool
  | none => true
  | some k => decide (0 ≤ k) && decide (k ≤ 50)

/-- The raw field values of a `/fill` request body before pydantic runs. -/
structure FillRequestInput where
  pointCoords : List (List ℚ)
  pointLabels : List ℤ
  dilateKernelSize : Option ℤ
  textPrompt : String

/-- A validated `FillRequest` as the route consumes it. -/
structure FillRequest where
  pointCoords : List (List ℚ)
  pointLabels : List ℤ
  dilateKernelSize : Option ℕ
  textPrompt : String

/-- `FillRequest(**req_dict)` (`requests.py` classes `InpaintBaseRequest` and
`FillRequest`): field constraints and validators in declaration order; any
failure raises a pydantic `ValidationError` (not an `InpaintException`).  The
`text_prompt` field carries `min_length=1, max_length=1000` before its
validator runs. -/
def parseFillRequest (r : FillRequestInput) : Except String FillRequest :=
  if !pydCoordsOk r.pointCoords then .error "point_coords invalid"
  else if !pydLabelsOk r.pointCoords r.pointLabels then .error "point_labels invalid"
  else if !pydDilateOk r.dilateKernelSize then .error "dilate_kernel_size out of range"
  else if r.textPrompt.length < 1 then .error "text_prompt too short"
  else if r.textPrompt.length > 1000 then .error "text_prompt too long"
  else
    match validate_text_prompt r.textPrompt with
    | .error e => .error e
    | .ok cleaned =>
      .ok ⟨r.pointCoords, r.pointLabels, r.dilateKernelSize.map Int.toNat, cleaned⟩

/-- The raw field values of a `/remove` request body. -/
structure RemoveRequestInput where
  pointCoords : List (List ℚ)
  pointLabels : List ℤ
  dilateKernelSize : Option ℤ

/-- A validated `RemoveRequest`. -/
structure RemoveRequest where
  pointCoords : List (List ℚ)
  pointLabels : List ℤ
  dilateKernelSize : Option ℕ

/-- `RemoveRequest(**req_dict)` (`requests.py`, `InpaintBaseRequest` with no
extra fields). -/
def parseRemoveRequest (r : RemoveRequestInput) : Except String RemoveRequest :=
  if !pydCoordsOk r.pointCoords then .error "point_coords invalid"
  else if !pydLabelsOk r.pointCoords r.pointLabels then .error "point_labels invalid"
  else if !pydDilateOk r.dilateKernelSize then .error "dilate_kernel_size out of range"
  else .ok ⟨r.pointCoords, r.pointLabels, r.dilateKernelSize.map Int.toNat⟩

/-- The Python exceptions that can escape a route body. -/
inductive PyExc where
  | inpaint (e : InpaintErr)
  | httpExc (status : ℕ) (detail : String)
  | validationError (msg : String)
deriving DecidableEq, Repr

/-- The JSON error body produced by the `app.exception_handler` functions of
`api/main.py`, together with the HTTP status it is sent with. -/
structure ErrorBody where
  status : ℕ
  success : Bool
  message : String
  errorCode : String
deriving DecidableEq, Repr

/-- `inpaint_exception_handler` (`main.py` lines 65-76): status 400, message
`str(exc)`, `error_code = exc.__class__.__name__`. -/
def inpaint_exception_handler (e : InpaintErr) : ErrorBody :=
  ⟨400, false, e.message, e.className⟩

/-- `http_exception_handler` (`main.py` lines 79-89): the exception's own
status, `error_code = "HTTPException"`. -/
def http_exception_handler (status : ℕ) (detail : String) : ErrorBody :=
  ⟨status, false, detail, "HTTPException"⟩

/-- `general_exception_handler` (`main.py` lines 92-103): status 500 with a
fixed generic body. -/
def general_exception_handler : ErrorBody :=
  ⟨500, false, "Internal server error", "InternalServerError"⟩

/-- FastAPI's dispatch of an escaping exception to the registered handler. -/
def dispatchException : PyExc → ErrorBody
  | .inpaint e => inpaint_exception_handler e
  | .httpExc st d => http_exception_handler st d
  | .validationError _ => general_exception_handler

/-- The identical `except` clauses of the three route bodies
(`routes/inpaint.py` lines 98-103, 159-164, 222-227): an `InpaintException`
is re-raised as `HTTPException(400, str(e))`, anything else as
`HTTPException(500, "Internal server error")`. -/
def routeCatch : PyExc → PyExc
  | .inpaint e => .httpExc 400 e.message
  | _ => .httpExc 500 "Internal server error"

/-- `fill_object` route, form-data path (`routes/inpaint.py` lines 106-164
with `body = None`): require the `request` form field, build `FillRequest`,
fetch the image, run the service; exceptions pass through the route's
`except` clauses and then the application handlers.  The count is the number
of model invocations performed. -/
def fill_route_form (models : Models) (image : Option UploadFile)
    (request : Option FillRequestInput) : Except ErrorBody (NdImage × Mask) × ℕ :=
  match request with
  | none =>
    (.error (dispatchException (routeCatch
      (.inpaint (.invalidImage "Request data is required")))), 0)
  | some reqIn =>
    match parseFillRequest reqIn with
    | .error m => (.error (dispatchException (routeCatch (.validationError m))), 0)
    | .ok req =>
      match get_image_from_request image none with
      | .error e => (.error (dispatchException (routeCatch (.inpaint e))), 0)
      | .ok (w, h) =>
        match fill_object models ⟨h, w⟩ req.pointCoords req.pointLabels
            req.textPrompt req.dilateKernelSize with
        | (.error e, n) => (.error (dispatchException (routeCatch (.inpaint e))), n)
        | (.ok res, n) => (.ok res, n)

/-- `remove_object` route, form-data path (`routes/inpaint.py` lines 47-103
with `body = None`). -/
def remove_route_form (models : Models) (image : Option UploadFile)
    (request : Option RemoveRequestInput) : Except ErrorBody (NdImage × Mask) × ℕ :=
  match request with
  | none =>
    (.error (dispatchException (routeCatch
      (.inpaint (.invalidImage "Request data is required")))), 0)
  | some reqIn =>
    match parseRemoveRequest reqIn with
    | .error m => (.error (dispatchException (routeCatch (.validationError m))), 0)
    | .ok req =>
      match get_image_from_request image none with
      | .error e => (.error (dispatchException (routeCatch (.inpaint e))), 0)
      | .ok (w, h) =>
        match remove_object models ⟨h, w⟩ req.pointCoords req.pointLabels
            req.dilateKernelSize with
        | (.error e, n) => (.error (dispatchException (routeCatch (.inpaint e))), n)
        | (.ok res, n) => (.ok res, n)

/-- A numpy array as `encode_image_to_base64` receives it: either already
8-bit (`dtype == np.uint8`) or anything else. -/
inductive NpArrayData where
  | u8 (vals : List ℕ)
  | floats (vals : List ℚ)

/-- `(x * 255).astype(np.uint8)` on one non-negative value: multiply by 255,
truncate, wrap into a byte. -/
def astypeUint8 (q : ℚ) : ℕ := (q * 255).floor.toNat % 256

/-- The dtype normalization of `encode_image_to_base64` (`image_utils.py`
lines 57-58): a non-uint8 buffer is scaled by 255 and cast to 8-bit. -/
def toUint8Vals : NpArrayData → List ℕ
  | .u8 v => v
  | .floats v => v.map astypeUint8

/-- `encode_image_to_base64` (`image_utils.py` lines 53-74): normalize the
dtype, save through PIL in the requested format, base64 the bytes (the PIL
save plus `base64.b64encode` are external; `pilSave` stands for them) and wrap
the result in a data URI whose MIME tag is the lower-cased format name.  The
`format` parameter defaults to PNG. -/
def encode_image_to_base64 (pilSave : List ℕ → String → String)
    (image : NpArrayData) (format : String := "PNG") : String :=
  "data:image/" ++ pyLower format ++ ";base64," ++ pilSave (toUint8Vals image) format

/-- The result-image encode call of the routes (`routes/inpaint.py` lines 81,
141, 203): `encode_image_to_base64(result_image)` with the format argument
left at its default. -/
def routeEncodeResult (pilSave : List ℕ → String → String)
    (img : NpArrayData) : String :=
  encode_image_to_base64 pilSave img

/-- `(mask * 255).astype('uint8')` (`routes/inpaint.py` lines 82, 142, 204):
a boolean mask scaled to a 0/255 byte array. -/
def maskTimes255 (m : Mask) : NpArrayData :=
  .u8 (m.flatten.map (fun b => if b then 255 else 0))

/-- The mask encode call of the routes: format again left at its default. -/
def routeEncodeMask (pilSave : List ℕ → String → String) (m : Mask) : String :=
  encode_image_to_base64 pilSave (maskTimes255 m)

/-- The exception class behind a pipeline result, `none` on success. -/
def resultClassName {α : Type} : Except InpaintErr α → Option String
  | .error e => some e.className
  | .ok _ => none

/-- A stand-in segmentation model for concrete evaluations. -/
def demoSam : NdImage → List (ℚ × ℚ) → List ℤ → SamOutput :=
  fun _ _ _ => ⟨[[[true]], [[false]], [[true, true]]], [1/2, 9/10, 9/10]⟩

/-- A registry with all three handles present, for concrete evaluations. -/
def demoModels : Models :=
  ⟨some demoSam, some (fun img _ => img), some (fun img _ _ _ => img)⟩

/-- A small PNG upload for concrete evaluations. -/
def demoUpload : UploadFile := ⟨"image/png", ⟨1000, some "PNG", "RGB", 200, 150⟩⟩

theorem npArgmax_lt_length : ∀ l : List ℚ, l ≠ [] → npArgmax l < l.length
  | [], h => absurd rfl h
  | [_], _ => by simp [npArgmax]
  | a :: b :: t, _ => by
    rw [npArgmax]
    by_cases hgt : listMax (b :: t) > a
    · have ih := npArgmax_lt_length (b :: t) (by simp)
      rw [if_pos hgt]
      simpa using Nat.succ_lt_succ ih
    · rw [if_neg hgt]
      simp

theorem npArgmax_getD_eq_listMax :
    ∀ l : List ℚ, l ≠ [] → l.getD (npArgmax l) 0 = listMax l
  | [], h => absurd rfl h
  | [_], _ => by simp [npArgmax, listMax]
  | a :: b :: t, _ => by
    rw [npArgmax, listMax]
    by_cases hgt : listMax (b :: t) > a
    · have ih := npArgmax_getD_eq_listMax (b :: t) (by simp)
      rw [if_pos hgt, List.getD_cons_succ, ih, max_eq_right (le_of_lt hgt)]
    · rw [if_neg hgt, List.getD_cons_zero, max_eq_left (not_lt.mp hgt)]

theorem getD_le_listMax : ∀ (l : List ℚ) (j : ℕ), j < l.length → l.getD j 0 ≤ listMax l
  | [], _, hj => by simp at hj
  | [a], j, hj => by
    have : j = 0 := by simpa using Nat.lt_one_iff.mp (by simpa using hj)
    subst this
    simp [listMax]
  | a :: b :: t, j, hj =>
    match j with
    | 0 => by rw [List.getD_cons_zero, listMax]; exact le_max_left _ _
    | j + 1 => by
      rw [List.getD_cons_succ, listMax]
      exact le_trans (getD_le_listMax (b :: t) j (by simpa using hj)) (le_max_right _ _)

theorem getD_lt_of_lt_npArgmax :
    ∀ (l : List ℚ) (j : ℕ), j < npArgmax l → l.getD j 0 < listMax l
  | [], j, h => by simp [npArgmax] at h
  | [_], j, h => by simp [npArgmax] at h
  | a :: b :: t, j, h => by
    rw [npArgmax] at h
    by_cases hgt : listMax (b :: t) > a
    · rw [if_pos hgt] at h
      rw [listMax, max_eq_right (le_of_lt hgt)]
      match j with
      | 0 => rw [List.getD_cons_zero]; exact hgt
      | j + 1 =>
        rw [List.getD_cons_succ]
        exact getD_lt_of_lt_npArgmax (b :: t) j (by omega)
    · rw [if_neg hgt] at h
      omega

/-- C1: two concurrent requests through `_predict_masks_async` are NOT
serialized — the code admits the schedule in which request 0 calls
`set_image`, suspends on the executor await, request 1 calls `set_image`, and
request 0's `predict` then observes request 1's image.  The schedule is
code-admissible (`codeSchedule`), it makes request 0's predict observe the
image bound by request 1, and per-request atomicity fails on it. -/
theorem c1_bind_predict_race_observed :
    codeSchedule [0, 1] raceTrace ∧
    (0, some 1) ∈ segObservations raceTrace ∧
    ¬ atomicPerRequest raceTrace := by decide

/-- C2: `masks[np.argmax(scores)]` picks an index in range whose score is the
maximum of the score list, every strictly earlier index has a strictly smaller
score (first-index tie-breaking), every score is bounded by that maximum, and
the selected mask is exactly the mask at that index — a deterministic function
of the candidate masks and scores. -/
theorem c2_best_mask_first_max (masks : List Mask) (scores : List ℚ)
    (h : scores ≠ []) :
    npArgmax scores < scores.length ∧
    scores.getD (npArgmax scores) 0 = listMax scores ∧
    (∀ j, j < scores.length → scores.getD j 0 ≤ listMax scores) ∧
    (∀ j, j < npArgmax scores → scores.getD j 0 < listMax scores) ∧
    selectBestMask masks scores = masks.getD (npArgmax scores) [] :=
  ⟨npArgmax_lt_length scores h, npArgmax_getD_eq_listMax scores h,
    fun j hj => getD_le_listMax scores j hj,
    fun j hj => getD_lt_of_lt_npArgmax scores j hj, rfl⟩

/-- Witness for C2 at scores `[1/2, 9/10, 9/10]` (a tie on the maximum):
the selection lands on index 1, the first index attaining the maximum. -/
theorem c2_best_mask_first_max_witness :
    npArgmax [(1 : ℚ)/2, 9/10, 9/10] < ([(1 : ℚ)/2, 9/10, 9/10]).length ∧
    ([(1 : ℚ)/2, 9/10, 9/10]).getD (npArgmax [(1 : ℚ)/2, 9/10, 9/10]) 0
      = listMax [(1 : ℚ)/2, 9/10, 9/10] ∧
    ([(1 : ℚ)/2, 9/10, 9/10]).getD 2 0 ≤ listMax [(1 : ℚ)/2, 9/10, 9/10] ∧
    ([(1 : ℚ)/2, 9/10, 9/10]).getD 0 0 < listMax [(1 : ℚ)/2, 9/10, 9/10] ∧
    selectBestMask [[[true]], [[false]], [[true, true]]] [(1 : ℚ)/2, 9/10, 9/10]
      = ([[[true]], [[false]], [[true, true]]] : List Mask).getD
          (npArgmax [(1 : ℚ)/2, 9/10, 9/10]) [] :=
  have h := c2_best_mask_first_max [[[true]], [[false]], [[true, true]]]
    [(1 : ℚ)/2, 9/10, 9/10] (by simp)
  ⟨h.1, h.2.1, h.2.2.1 2 (by simp), h.2.2.2.1 0 (by norm_num [npArgmax, listMax]),
    h.2.2.2.2⟩

/-- C9: the dilation stage is a conditional no-op — an absent kernel radius
and a radius of 0 both leave the selected mask unchanged, and any nonzero
radius in `[1, 50]` replaces it by the morphological dilation of that
radius. -/
theorem c9_dilate_stage_conditional (m : Mask) :
    applyDilate none m = m ∧
    applyDilate (some 0) m = m ∧
    (∀ k, 1 ≤ k → k ≤ 50 → applyDilate (some k) m = dilate_mask m k) := by
  refine ⟨rfl, rfl, fun k h1 _ => ?_⟩
  have : optTruthy (some k) = true := by
    simp [optTruthy]
    omega
  simp [applyDilate, this]

/-- Witness for C9 at a concrete 2×2 mask and radius 5. -/
theorem c9_dilate_stage_conditional_witness :
    applyDilate none [[true, false], [false, false]] = [[true, false], [false, false]] ∧
    applyDilate (some 0) [[true, false], [false, false]] = [[true, false], [false, false]] ∧
    applyDilate (some 5) [[true, false], [false, false]]
      = dilate_mask [[true, false], [false, false]] 5 :=
  have h := c9_dilate_stage_conditional [[true, false], [false, false]]
  ⟨h.1, h.2.1, h.2.2 5 (by decide) (by decide)⟩

theorem load_sam_model_state (ok : Bool) (h : ℕ) (s : LoaderState) :
    ((load_sam_model ok h s).1).lamaModel = s.lamaModel ∧
    ((load_sam_model ok h s).1).lamaConfig = s.lamaConfig ∧
    ((load_sam_model ok h s).1).sdPipeline = s.sdPipeline ∧
    ∀ p, s.samPredictor = some p → (load_sam_model ok h s).1 = s := by
  unfold load_sam_model
  cases hs : s.samPredictor
  · simp only
    split <;> simp
  · simp

theorem load_lama_model_state (ok : Bool) (m c : ℕ) (s : LoaderState) :
    ((load_lama_model ok m c s).1).samPredictor = s.samPredictor ∧
    ((load_lama_model ok m c s).1).sdPipeline = s.sdPipeline ∧
    ∀ p, s.lamaModel = some p → (load_lama_model ok m c s).1 = s := by
  unfold load_lama_model
  cases hs : s.lamaModel
  · simp only
    split <;> simp_all
  · simp

theorem load_sd_pipeline_state (ok : Bool) (h : ℕ) (s : LoaderState) :
    ((load_sd_pipeline ok h s).1).samPredictor = s.samPredictor ∧
    ((load_sd_pipeline ok h s).1).lamaModel = s.lamaModel ∧
    ((load_sd_pipeline ok h s).1).lamaConfig = s.lamaConfig ∧
    ∀ p, s.sdPipeline = some p → (load_sd_pipeline ok h s).1 = s := by
  unfold load_sd_pipeline
  cases hs : s.sdPipeline
  · simp only
    split <;> simp
  · simp

theorem applyOp_samPredictor_mono (op : LoaderOp) (s : LoaderState) (p : ℕ)
    (h : s.samPredictor = some p) : (applyOp op s).samPredictor = some p := by
  cases op with
  | loadSam ok h' =>
    rcases load_sam_model_state ok h' s with ⟨_, _, _, h4⟩
    simp [applyOp, h4 p h, h]
  | loadLama ok m c =>
    rcases load_lama_model_state ok m c s with ⟨h1, _⟩
    simp [applyOp, h1, h]
  | loadSd ok h' =>
    rcases load_sd_pipeline_state ok h' s with ⟨h1, _⟩
    simp [applyOp, h1, h]
  | loadAll a b c hs hl hc hd =>
    simp only [applyOp, load_all_models]
    rw [(load_sd_pipeline_state c hd _).1, (load_lama_model_state b hl hc _).1,
      (load_sam_model_state a hs s).2.2.2 p h]
    exact h

theorem applyOp_lamaModel_mono (op : LoaderOp) (s : LoaderState) (p : ℕ)
    (h : s.lamaModel = some p) : (applyOp op s).lamaModel = some p := by
  cases op with
  | loadSam ok h' =>
    rcases load_sam_model_state ok h' s with ⟨h1, _⟩
    simp [applyOp, h1, h]
  | loadLama ok m c =>
    rcases load_lama_model_state ok m c s with ⟨_, _, h3⟩
    simp [applyOp, h3 p h, h]
  | loadSd ok h' =>
    rcases load_sd_pipeline_state ok h' s with ⟨_, h2, _⟩
    simp [applyOp, h2, h]
  | loadAll a b c hs hl hc hd =>
    simp only [applyOp, load_all_models]
    have hsam : ((load_sam_model a hs s).1).lamaModel = some p :=
      (load_sam_model_state a hs s).1 ▸ h
    rw [(load_sd_pipeline_state c hd _).2.1,
      (load_lama_model_state b hl hc _).2.2 p hsam]
    exact hsam

theorem applyOp_sdPipeline_mono (op : LoaderOp) (s : LoaderState) (p : ℕ)
    (h : s.sdPipeline = some p) : (applyOp op s).sdPipeline = some p := by
  cases op with
  | loadSam ok h' =>
    rcases load_sam_model_state ok h' s with ⟨_, _, h3, _⟩
    simp [applyOp, h3, h]
  | loadLama ok m c =>
    rcases load_lama_model_state ok m c s with ⟨_, h2, _⟩
    simp [applyOp, h2, h]
  | loadSd ok h' =>
    rcases load_sd_pipeline_state ok h' s with ⟨_, _, _, h4⟩
    simp [applyOp, h4 p h, h]
  | loadAll a b c hs hl hc hd =>
    simp only [applyOp, load_all_models]
    have h1 : ((load_lama_model b hl hc (load_sam_model a hs s).1).1).sdPipeline = some p := by
      rw [(load_lama_model_state b hl hc _).2.1, (load_sam_model_state a hs s).2.2.1]
      exact h
    rw [(load_sd_pipeline_state c hd _).2.2.2 p h1]
    exact h1

theorem applyOp_preserves_ready (op : LoaderOp) (s : LoaderState)
    (h : is_ready s = true) : is_ready (applyOp op s) = true := by
  unfold is_ready at h ⊢
  simp only [Bool.and_eq_true, Option.isSome_iff_exists] at h ⊢
  obtain ⟨⟨⟨p1, e1⟩, ⟨p2, e2⟩⟩, ⟨p3, e3⟩⟩ := h
  exact ⟨⟨⟨p1, applyOp_samPredictor_mono op s p1 e1⟩,
    ⟨p2, applyOp_lamaModel_mono op s p2 e2⟩⟩,
    ⟨p3, applyOp_sdPipeline_mono op s p3 e3⟩⟩

theorem applyOps_preserves_ready (ops : List LoaderOp) :
    ∀ s : LoaderState, is_ready s = true → is_ready (applyOps ops s) = true := by
  induction ops with
  | nil => intro s h; exact h
  | cons o t ih =>
    intro s h
    have : applyOps (o :: t) s = applyOps t (applyOp o s) := rfl
    rw [this]
    exact ih _ (applyOp_preserves_ready o s h)

/-- C4: the registry is monotonic and loads are idempotent — no registry
operation (kind-specific load or `load_all_models`) ever unsets or replaces a
handle that is already set, and a load invoked with its handle already present
leaves the state untouched and returns the existing handle. -/
theorem c4_registry_monotone_idempotent :
    (∀ op s p, s.samPredictor = some p → (applyOp op s).samPredictor = some p) ∧
    (∀ op s p, s.lamaModel = some p → (applyOp op s).lamaModel = some p) ∧
    (∀ op s p, s.sdPipeline = some p → (applyOp op s).sdPipeline = some p) ∧
    (∀ ok h s p, s.samPredictor = some p → load_sam_model ok h s = (s, .ok p)) ∧
    (∀ ok m c s p, s.lamaModel = some p →
      load_lama_model ok m c s = (s, .ok (p, s.lamaConfig))) ∧
    (∀ ok h s p, s.sdPipeline = some p → load_sd_pipeline ok h s = (s, .ok p)) := by
  refine ⟨applyOp_samPredictor_mono, applyOp_lamaModel_mono, applyOp_sdPipeline_mono,
    ?_, ?_, ?_⟩
  · intro ok h s p hp; unfold load_sam_model; rw [hp]
  · intro ok m c s p hp; unfold load_lama_model; rw [hp]
  · intro ok h s p hp; unfold load_sd_pipeline; rw [hp]

/-- Witness for C4: a state with only the SAM handle set keeps it across a
`load_all_models`, and a repeated SAM load returns the existing handle with
the state unchanged. -/
theorem c4_registry_monotone_idempotent_witness :
    (applyOp (.loadAll true true true 10 11 12 13) ⟨some 3, none, none, none⟩).samPredictor
      = some 3 ∧
    load_sam_model true 7 ⟨some 3, none, none, none⟩ = (⟨some 3, none, none, none⟩, .ok 3) :=
  ⟨c4_registry_monotone_idempotent.1 (.loadAll true true true 10 11 12 13)
      ⟨some 3, none, none, none⟩ 3 rfl,
    c4_registry_monotone_idempotent.2.2.2.1 true 7 ⟨some 3, none, none, none⟩ 3 rfl⟩

/-- C5: `is_ready` is true exactly when all three handles are set, the
readiness route answers 503 exactly in the states where a handle is absent and
200 exactly in the states where all are present, and — handles never being
unset — once ready the route answers 200 after any further sequence of
registry operations. -/
theorem c5_ready_gate :
    (∀ s : LoaderState, is_ready s = true ↔
      s.samPredictor.isSome = true ∧ s.lamaModel.isSome = true ∧
        s.sdPipeline.isSome = true) ∧
    (∀ s : LoaderState, readiness_status s = 503 ↔ is_ready s = false) ∧
    (∀ s : LoaderState, readiness_status s = 200 ↔ is_ready s = true) ∧
    (∀ (s : LoaderState) (ops : List LoaderOp), is_ready s = true →
      readiness_status (applyOps ops s) = 200) := by
  refine ⟨?_, ?_, ?_, ?_⟩
  · intro s; unfold is_ready; simp [and_assoc]
  · intro s; unfold readiness_status; rcases h : is_ready s <;> simp [h]
  · intro s; unfold readiness_status; rcases h : is_ready s <;> simp [h]
  · intro s ops h
    unfold readiness_status
    rw [applyOps_preserves_ready ops s h]
    rfl

/-- Witness for C5: a fully loaded state answers 200 and still answers 200
after further loads. -/
theorem c5_ready_gate_witness :
    readiness_status (applyOps [.loadSam true 9, .loadAll true true true 10 11 12 13]
      ⟨some 1, some 2, some 3, some 4⟩) = 200 ∧
    (readiness_status (⟨none, some 2, some 3, some 4⟩ : LoaderState) = 503 ↔
      is_ready (⟨none, some 2, some 3, some 4⟩ : LoaderState) = false) :=
  ⟨c5_ready_gate.2.2.2 ⟨some 1, some 2, some 3, some 4⟩
      [.loadSam true 9, .loadAll true true true 10 11 12 13] rfl,
    c5_ready_gate.2.1 ⟨none, some 2, some 3, some 4⟩⟩

theorem except_isOk_map {ε α β : Type} (r : Except ε α) (f : α → β) :
    (r.map f).isOk = r.isOk := by
  cases r <;> rfl

theorem except_map_eq_error {ε α β : Type} (r : Except ε α) (f : α → β) (e : ε)
    (h : r.map f = .error e) : r = .error e := by
  cases r
  · simpa [Except.map] using h
  · simp [Except.map] at h

theorem except_map_eq_ok {ε α β : Type} (r : Except ε α) (f : α → β) (b : β)
    (h : r.map f = .ok b) : ∃ a, r = .ok a ∧ b = f a := by
  cases r with
  | error e => simp [Except.map] at h
  | ok a => exact ⟨a, rfl, by simpa [Except.map] using h.symm⟩

theorem validate_coordinates_ok_iff (height width : ℕ) :
    ∀ coords : List (List ℚ),
      (validate_coordinates coords height width).isOk = true ↔
        ∀ c ∈ coords, c.length = 2 ∧ 0 ≤ c.getD 0 0 ∧ c.getD 0 0 ≤ (width : ℚ) ∧
          0 ≤ c.getD 1 0 ∧ c.getD 1 0 ≤ (height : ℚ)
  | [] => by simp [validate_coordinates, Except.isOk, Except.toBool]
  | c :: rest => by
    have ih := validate_coordinates_ok_iff height width rest
    rw [validate_coordinates]
    by_cases hlen : c.length = 2
    · rw [if_pos hlen]
      by_cases hb : 0 ≤ c.getD 0 0 ∧ c.getD 0 0 ≤ (width : ℚ) ∧
          0 ≤ c.getD 1 0 ∧ c.getD 1 0 ≤ (height : ℚ)
      · rw [if_pos hb, except_isOk_map, ih]
        constructor
        · intro hall a ha
          rcases List.mem_cons.mp ha with h1 | h2
          · subst h1; exact ⟨hlen, hb⟩
          · exact hall a h2
        · intro hall a ha
          exact hall a (List.mem_cons_of_mem c ha)
      · rw [if_neg hb]
        simp only [Except.isOk, Except.toBool, Bool.false_eq_true, false_iff]
        intro hall
        exact hb ((hall c (List.mem_cons_self c rest)).2)
    · rw [if_neg hlen]
      simp only [Except.isOk, Except.toBool, Bool.false_eq_true, false_iff]
      intro hall
      exact hlen ((hall c (List.mem_cons_self c rest)).1)

theorem validate_coordinates_error_class (height width : ℕ) :
    ∀ (coords : List (List ℚ)) (e : InpaintErr),
      validate_coordinates coords height width = .error e →
        e.className = "InvalidImageException"
  | [], e => by simp [validate_coordinates]
  | c :: rest, e => by
    rw [validate_coordinates]
    by_cases hlen : c.length = 2
    · rw [if_pos hlen]
      by_cases hb : 0 ≤ c.getD 0 0 ∧ c.getD 0 0 ≤ (width : ℚ) ∧
          0 ≤ c.getD 1 0 ∧ c.getD 1 0 ≤ (height : ℚ)
      · rw [if_pos hb]
        intro h
        exact validate_coordinates_error_class height width rest e
          (except_map_eq_error _ _ _ h)
      · rw [if_neg hb]
        intro h
        cases h
        rfl
    · rw [if_neg hlen]
      intro h
      cases h
      rfl

theorem validate_coordinates_length (height width : ℕ) :
    ∀ (coords : List (List ℚ)) (vs : List (ℚ × ℚ)),
      validate_coordinates coords height width = .ok vs → vs.length = coords.length
  | [], vs => by
    rw [validate_coordinates]
    intro h
    cases h
    rfl
  | c :: rest, vs => by
    rw [validate_coordinates]
    by_cases hlen : c.length = 2
    · rw [if_pos hlen]
      by_cases hb : 0 ≤ c.getD 0 0 ∧ c.getD 0 0 ≤ (width : ℚ) ∧
          0 ≤ c.getD 1 0 ∧ c.getD 1 0 ≤ (height : ℚ)
      · rw [if_pos hb]
        intro h
        obtain ⟨vs', hvs', hb'⟩ := except_map_eq_ok _ _ _ h
        have := validate_coordinates_length height width rest vs' hvs'
        simp [hb', this]
      · rw [if_neg hb]
        intro h
        cases h
    · rw [if_neg hlen]
      intro h
      cases h

theorem validate_point_labels_ok_iff (labels : List ℤ) (n : ℕ) :
    (validate_point_labels labels n).isOk = true ↔
      labels.length = n ∧ ∀ l ∈ labels, l = 0 ∨ l = 1 := by
  unfold validate_point_labels
  split
  next hlen =>
    simp only [Except.isOk, Except.toBool, Bool.false_eq_true, false_iff]
    intro h
    exact hlen h.1
  next hlen =>
    push_neg at hlen
    split
    next hall =>
      simp only [Except.isOk, Except.toBool, true_iff]
      refine ⟨hlen, fun l hl => ?_⟩
      have := List.all_eq_true.mp hall l hl
      simpa using this
    next hall =>
      simp only [Except.isOk, Except.toBool, Bool.false_eq_true, false_iff]
      intro h
      apply hall
      apply List.all_eq_true.mpr
      intro l hl
      simpa using h.2 l hl

theorem validate_point_labels_error_class (labels : List ℤ) (n : ℕ) (e : InpaintErr) :
    validate_point_labels labels n = .error e → e.className = "InvalidImageException" := by
  unfold validate_point_labels
  split
  next =>
    intro h; cases h; rfl
  next =>
    split
    next =>
      intro h; cases h
    next =>
      intro h; cases h; rfl

/-- C3 (amended): the service-level validators accept exactly the point-prompt
sets whose coordinates are two-element pairs inside `[0,width]×[0,height]` and
whose labels match the coordinate count with values in `{0,1}` — non-emptiness
is NOT checked at this layer; in particular every §3-invariant-satisfying set
passes, and whenever either validator rejects, `remove_object` returns an
`InvalidImageException` having performed zero model calls. -/
theorem c3_validation_characterization (models : Models) (img : NdImage)
    (coords : List (List ℚ)) (labels : List ℤ) (dks : Option ℕ) :
    (pointPromptInvariants coords labels img.height img.width →
      (validate_coordinates coords img.height img.width).isOk = true ∧
      (validate_point_labels labels coords.length).isOk = true) ∧
    ((validate_coordinates coords img.height img.width).isOk = true ↔
      ∀ c ∈ coords, c.length = 2 ∧ 0 ≤ c.getD 0 0 ∧ c.getD 0 0 ≤ (img.width : ℚ) ∧
        0 ≤ c.getD 1 0 ∧ c.getD 1 0 ≤ (img.height : ℚ)) ∧
    ((validate_point_labels labels coords.length).isOk = true ↔
      labels.length = coords.length ∧ ∀ l ∈ labels, l = 0 ∨ l = 1) ∧
    (¬ ((validate_coordinates coords img.height img.width).isOk = true ∧
        (validate_point_labels labels coords.length).isOk = true) →
      resultClassName (remove_object models img coords labels dks).1
          = some "InvalidImageException" ∧
      (remove_object models img coords labels dks).2 = 0) := by
  refine ⟨?_, validate_coordinates_ok_iff img.height img.width coords,
    validate_point_labels_ok_iff labels coords.length, ?_⟩
  · intro hinv
    obtain ⟨_, _, hlen, hcoord, hlab⟩ := hinv
    exact ⟨(validate_coordinates_ok_iff img.height img.width coords).mpr hcoord,
      (validate_point_labels_ok_iff labels coords.length).mpr ⟨hlen, hlab⟩⟩
  · intro hfail
    unfold remove_object
    rcases hc : validate_coordinates coords img.height img.width with e | vs
    · simp only [hc]
      exact ⟨by simp [resultClassName,
        validate_coordinates_error_class img.height img.width coords e hc], trivial⟩
    · have hlenvs := validate_coordinates_length img.height img.width coords vs hc
      rcases hl : validate_point_labels labels vs.length with e' | ls
      · simp only [hc, hl]
        exact ⟨by simp [resultClassName,
          validate_point_labels_error_class labels vs.length e' hl], trivial⟩
      · exfalso
        apply hfail
        constructor
        · rw [hc]; rfl
        · rw [← hlenvs, hl]; rfl

/-- Witness for C3 at a label-domain violation: label 7 on a single valid
coordinate is rejected with `InvalidImageException` and zero model calls. -/
theorem c3_validation_characterization_witness :
    resultClassName (remove_object demoModels ⟨150, 200⟩ [[5, 5]] [7] none).1
        = some "InvalidImageException" ∧
    (remove_object demoModels ⟨150, 200⟩ [[5, 5]] [7] none).2 = 0 :=
  (c3_validation_characterization demoModels ⟨150, 200⟩ [[5, 5]] [7] none).2.2.2
    (by
      intro h
      have := (validate_point_labels_ok_iff [7] 1).mp h.2
      have h7 := this.2 7 (by simp)
      omega)

/-- Counterexample for C3 as stated: the empty point-prompt set violates the
§3 non-emptiness invariant, yet both validators accept it and `remove_object`
proceeds to perform its two model calls instead of failing with
`InvalidInput`. -/
theorem c3_empty_prompt_set_not_rejected :
    ¬ pointPromptInvariants [] [] 150 200 ∧
    validate_coordinates [] 150 200 = .ok [] ∧
    validate_point_labels [] 0 = .ok [] ∧
    (remove_object demoModels ⟨150, 200⟩ [] [] none).2 = 2 := by
  refine ⟨?_, rfl, rfl, rfl⟩
  intro h
  exact h.1 rfl

/-- C7 (behaviour at the failing input): the decoder's format gate is the
case-sensitive literal list `["JPEG", "PNG", "WebP"]`, while PIL names the
WebP format with the uppercase string WEBP — so every well-formed WebP
payload is rejected with `UnsupportedImageFormatException`, although JPEG and
PNG payloads pass and the route itself advertises `image/webp` support. -/
theorem c7_webp_rejected_by_format_gate :
    load_image_from_file ⟨1000, some "WEBP", "RGB", 64, 64⟩
      = .error (.unsupportedImageFormat "Unsupported image format: WEBP") ∧
    decode_base64_image ⟨1000, some "WEBP", "RGB", 64, 64⟩
      = .error (.unsupportedImageFormat "Unsupported image format: WEBP") ∧
    load_image_from_file ⟨1000, some "PNG", "RGB", 64, 64⟩ = .ok (64, 64) ∧
    load_image_from_file ⟨1000, some "JPEG", "RGB", 64, 64⟩ = .ok (64, 64) ∧
    load_image_from_file ⟨1000, some "GIF", "RGB", 64, 64⟩
      = .error (.unsupportedImageFormat "Unsupported image format: GIF") ∧
    "WEBP" ∉ allowedFormats := by
  refine ⟨by decide, by decide, by decide, by decide, by decide, by decide⟩

theorem parseFillRequest_error_of_empty_prompt (r : FillRequestInput)
    (hp : pyStrip r.textPrompt = "") : ∃ m, parseFillRequest r = .error m := by
  have hprompt : validate_text_prompt r.textPrompt
      = .error "text_prompt cannot be empty or only whitespace" := by
    unfold validate_text_prompt
    rw [if_pos hp]
  unfold parseFillRequest
  rw [hprompt]
  by_cases h1 : (!pydCoordsOk r.pointCoords) = true
  · rw [if_pos h1]; exact ⟨_, rfl⟩
  · rw [if_neg h1]
    by_cases h2 : (!pydLabelsOk r.pointCoords r.pointLabels) = true
    · rw [if_pos h2]; exact ⟨_, rfl⟩
    · rw [if_neg h2]
      by_cases h3 : (!pydDilateOk r.dilateKernelSize) = true
      · rw [if_pos h3]; exact ⟨_, rfl⟩
      · rw [if_neg h3]
        by_cases h4 : r.textPrompt.length < 1
        · rw [if_pos h4]; exact ⟨_, rfl⟩
        · rw [if_neg h4]
          by_cases h5 : r.textPrompt.length > 1000
          · rw [if_pos h5]; exact ⟨_, rfl⟩
          · rw [if_neg h5]; exact ⟨_, rfl⟩

/-- C6 (amended): a recognized domain error raised inside a route body is
re-raised as `HTTPException(400, str(e))`, so the client sees status 400 with
`error_code = "HTTPException"` — never the taxonomy name; and an empty
`text_prompt` on `/fill` is rejected by the pydantic request model, whose
`ValidationError` falls into the route's generic handler: status 500,
`error_code = "HTTPException"`, zero model calls. -/
theorem c6_domain_error_codes (e : InpaintErr) (models : Models)
    (image : Option UploadFile) (reqIn : FillRequestInput)
    (hp : pyStrip reqIn.textPrompt = "") :
    dispatchException (routeCatch (.inpaint e))
      = ⟨400, false, e.message, "HTTPException"⟩ ∧
    fill_route_form models image (some reqIn)
      = (.error ⟨500, false, "Internal server error", "HTTPException"⟩, 0) := by
  constructor
  · rfl
  · obtain ⟨m, hm⟩ := parseFillRequest_error_of_empty_prompt reqIn hp
    unfold fill_route_form
    simp only [hm]
    rfl

/-- Witness for C6: a `ModelNotLoadedException` surfaces as 400 with
`error_code = "HTTPException"`, and the concrete empty-prompt `/fill` request
yields 500 with zero model calls. -/
theorem c6_domain_error_codes_witness :
    dispatchException (routeCatch (.inpaint (.modelNotLoaded "SAM model not loaded")))
      = ⟨400, false, "SAM model not loaded", "HTTPException"⟩ ∧
    fill_route_form demoModels (some demoUpload) (some ⟨[[5, 5]], [1], none, ""⟩)
      = (.error ⟨500, false, "Internal server error", "HTTPException"⟩, 0) :=
  ⟨(c6_domain_error_codes (.modelNotLoaded "SAM model not loaded") demoModels
      (some demoUpload) ⟨[[5, 5]], [1], none, ""⟩ rfl).1,
    (c6_domain_error_codes (.modelNotLoaded "SAM model not loaded") demoModels
      (some demoUpload) ⟨[[5, 5]], [1], none, ""⟩ rfl).2⟩

/-- Counterexample for C6 as stated: on the concrete empty-prompt `/fill`
request the response is 500 with `error_code = "HTTPException"` — not 400 and
not `error_code = "InvalidInput"` as the claim requires. -/
theorem c6_empty_prompt_not_invalid_input :
    fill_route_form demoModels (some demoUpload) (some ⟨[[5, 5]], [1], none, ""⟩)
      = (.error ⟨500, false, "Internal server error", "HTTPException"⟩, 0) ∧
    (⟨500, false, "Internal server error", "HTTPException"⟩ : ErrorBody).status ≠ 400 ∧
    (⟨500, false, "Internal server error", "HTTPException"⟩ : ErrorBody).errorCode
      ≠ "InvalidInput" := by
  refine ⟨rfl, by decide, by decide⟩

/-- C8 (amended): a mutating request carrying neither a file upload nor
`image_data` fails before any decoding or model work with
`InvalidImageException`, surfaced as HTTP 400 with
`error_code = "HTTPException"` (not `"InvalidInput"`); and exactly-one-source
is not enforced — when both a file and `image_data` are supplied the file
silently wins. -/
theorem c8_image_source_handling (models : Models) (reqIn : RemoveRequestInput)
    (req : RemoveRequest) (hp : parseRemoveRequest reqIn = .ok req)
    (f : UploadFile) (d : ImagePayload)
    (hct : f.contentType ∈ ["image/jpeg", "image/png", "image/webp"]) :
    remove_route_form models none (some reqIn)
      = (.error ⟨400, false, "Either image file or image_data must be provided",
          "HTTPException"⟩, 0) ∧
    get_image_from_request none none
      = .error (.invalidImage "Either image file or image_data must be provided") ∧
    get_image_from_request (some f) (some d) = load_image_from_file f.payload := by
  refine ⟨?_, rfl, ?_⟩
  · unfold remove_route_form
    simp only [hp]
    rfl
  · unfold get_image_from_request
    simp only [if_pos hct]

/-- Witness for C8: the concrete no-image `/remove` request and a concrete
double-source call. -/
theorem c8_image_source_handling_witness :
    remove_route_form demoModels none (some ⟨[[5, 5]], [1], none⟩)
      = (.error ⟨400, false, "Either image file or image_data must be provided",
          "HTTPException"⟩, 0) ∧
    get_image_from_request none none
      = .error (.invalidImage "Either image file or image_data must be provided") ∧
    get_image_from_request (some demoUpload) (some ⟨500, some "PNG", "RGB", 64, 64⟩)
      = load_image_from_file demoUpload.payload :=
  c8_image_source_handling demoModels ⟨[[5, 5]], [1], none⟩
    ⟨[[5, 5]], [1], none⟩ rfl demoUpload ⟨500, some "PNG", "RGB", 64, 64⟩ (by decide)

/-- Counterexample for C8 as stated: the no-source request's `error_code` is
`"HTTPException"`, not `"InvalidInput"`, and a request shape carrying BOTH an
upload and `image_data` is accepted (the upload is decoded) rather than
rejected. -/
theorem c8_both_sources_accepted :
    get_image_from_request (some demoUpload) (some ⟨500, some "PNG", "RGB", 64, 64⟩)
      = .ok (200, 150) ∧
    (remove_route_form demoModels none (some ⟨[[5, 5]], [1], none⟩)).1
      = .error ⟨400, false, "Either image file or image_data must be provided",
          "HTTPException"⟩ ∧
    ("HTTPException" : String) ≠ "InvalidInput" := by
  refine ⟨by decide, rfl, by decide⟩

/-- C10: every successful operation's images are encoded as PNG data URIs —
the route call sites leave the encoder's format parameter at its PNG default,
so both the result image and the mask image strings carry the prefix
`data:image/png;base64,` whatever the inbound image's format was, and a
non-uint8 buffer is scaled by 255 into bytes before encoding. -/
theorem c10_encode_png_data_uri (pilSave : List ℕ → String → String)
    (img : NpArrayData) (m : Mask) (v : List ℚ) :
    routeEncodeResult pilSave img
      = "data:image/png;base64," ++ pilSave (toUint8Vals img) "PNG" ∧
    routeEncodeMask pilSave m
      = "data:image/png;base64," ++ pilSave (toUint8Vals (maskTimes255 m)) "PNG" ∧
    toUint8Vals (.floats v) = v.map astypeUint8 ∧
    maskTimes255 m = .u8 (m.flatten.map (fun b => if b then 255 else 0)) :=
  ⟨rfl, rfl, rfl, rfl⟩

end InpaintAnything
